import Mathlib

/-!
Shallow embedding of the `DiscordWebhook` client
(src/discord-webhook-async.py) and proofs of its specification claims.

The embedding follows the source line by line:

* Python dictionary values are modelled by the inductive `Val`
  (Python `None` is `Val.none`, nested dicts are `Val.obj`).
* The payload builders `send_message`, `send_embed`, `edit_message`,
  `delete_message`, `get_webhook_info` become pure functions producing a
  `Request` record (method, url, payload), exactly as the Python code
  assembles its dict literals (including the explicit `None` values the
  source stores for unset optional fields, and the truthiness tests
  `if embed`, `if fields`, `if footer`, ...).
* The retry dispatcher `_send_request` (lines 99-127) is embedded as a
  function from the client configuration and an environment
  `outcomes : Nat -> AttemptOutcome` (the outcome of the n-th HTTP
  attempt) to a `DispatchTrace`: the returned value, the ordered list of
  backoff sleeps executed, and the number of HTTP attempts issued.
  `retries` is an `Int` because a Python `int` may be negative, in which
  case the `while attempt <= self.retries` loop body never runs and the
  coroutine falls off the end returning `None` (modelled by
  `result = Option.none`).
* The session lifecycle (`_get_session`, `close`) is modelled by explicit
  state passing on `ClientState`; an aiohttp session is a `Session`
  record with an identity and a `closed` flag.  `close` (lines 33-36)
  awaits `session.close()` but never assigns `self.session = None`, and
  the embedding mirrors that.
-/

namespace DiscordWebhookAsync

/-- Python values as they appear in the payload dictionaries of the
source: `None`, strings, integers, lists and nested dicts. -/
inductive Val where
  | none
  | str (s : String)
  | int (n : Int)
  | list (vs : List Val)
  | obj (kvs : List (String × Val))
deriving Repr

/-- An `Optional[str]` argument stored directly into a dict slot:
`some s` is the Python string `s`, `Option.none` is Python `None`. -/
def optStrVal : Option String → Val
  | some s => Val.str s
  | Option.none => Val.none

/-- An HTTP request as handed to the dispatcher by a payload builder:
the method string, the target URL and the payload dictionary. -/
structure Request where
  method : String
  url : String
  payload : List (String × Val)
deriving Repr

/-- Outcome of one HTTP attempt inside `_send_request`, classifying the
source's `try` block: a 2xx response whose JSON body decoded to `body`,
an `aiohttp.ClientResponseError` raised by `raise_for_status`, any other
`aiohttp.ClientError` (transport failure), or any other `Exception`. -/
inductive AttemptOutcome where
  | success (body : Val)
  | httpError (status : Nat) (message : String)
  | transportError (message : String)
  | unexpectedError (message : String)
deriving Repr

/-- Whether the attempt took the non-exceptional path (2xx and decoded). -/
def AttemptOutcome.isSuccess : AttemptOutcome → Bool
  | AttemptOutcome.success _ => true
  | _ => false

/-- The fixed key under which `_send_request` reports failures. -/
def errorKey : String := "error"

/-- The value `_send_request` returns when it returns at all: the decoded
JSON body on success, or the dict with the fixed error key. -/
inductive DispatchResult where
  | body (b : Val)
  | errorMap (msg : String)
deriving Repr

/-- The Python value a `DispatchResult` stands for: the decoded body
itself, or the literal dict of line 113/117/121. -/
def DispatchResult.toReturnValue : DispatchResult → Val
  | DispatchResult.body b => b
  | DispatchResult.errorMap m => Val.obj [(errorKey, Val.str m)]

/-- Observable trace of one `_send_request` call: the value returned
(`Option.none` when the loop body never ran and the coroutine returned
Python `None`), the backoff times passed to the sleep call in order, and
the number of HTTP attempts issued. -/
structure DispatchTrace where
  result : Option DispatchResult
  sleeps : List ℚ
  attempts : Nat
deriving Repr

/-- The retry loop of `_send_request` (lines 104-127), unrolled on the
number of further attempts still permitted (`remaining = retries -
attempt`, so `remaining = 0` is exactly the source's `attempt ==
self.retries` test).  On a non-final failure the source increments
`attempt` and sleeps `backoff_factor * 2 ** attempt` with the
post-increment value, hence the exponent `attempt + 1`. -/
def sendRequestGo (backoff_factor : ℚ) (outcomes : Nat → AttemptOutcome) :
    Nat → Nat → DispatchResult × List ℚ × Nat
  | attempt, 0 =>
    match outcomes attempt with
    | AttemptOutcome.success b => (DispatchResult.body b, [], 1)
    | AttemptOutcome.httpError _ msg =>
        (DispatchResult.errorMap ("Max retries reached: " ++ msg), [], 1)
    | AttemptOutcome.transportError msg =>
        (DispatchResult.errorMap ("Request failed: " ++ msg), [], 1)
    | AttemptOutcome.unexpectedError msg =>
        (DispatchResult.errorMap ("Unexpected error: " ++ msg), [], 1)
  | attempt, remaining + 1 =>
    match outcomes attempt with
    | AttemptOutcome.success b => (DispatchResult.body b, [], 1)
    | _ =>
      let t := sendRequestGo backoff_factor outcomes (attempt + 1) remaining
      (t.1, (backoff_factor * 2 ^ (attempt + 1)) :: t.2.1, t.2.2 + 1)

/-- `_send_request` seen through its observable trace.  A negative
`retries` makes the `while attempt <= self.retries` guard false at entry:
no attempt, no sleep, and the coroutine returns Python `None`. -/
def _send_request (retries : Int) (backoff_factor : ℚ)
    (outcomes : Nat → AttemptOutcome) : DispatchTrace :=
  if retries < 0 then
    { result := Option.none, sleeps := [], attempts := 0 }
  else
    let t := sendRequestGo backoff_factor outcomes 0 retries.toNat
    { result := some t.1, sleeps := t.2.1, attempts := t.2.2 }

/-- An aiohttp `ClientSession`: an identity plus its closed flag. -/
structure Session where
  sid : Nat
  closed : Bool
deriving Repr, DecidableEq

/-- The mutable state of a `DiscordWebhook` client: configuration fixed
at construction and the lazily created session reference. -/
structure ClientState where
  url : String
  retries : Int
  backoff_factor : ℚ
  session : Option Session
deriving Repr, DecidableEq

/-- `_get_session` (lines 27-31): create the session on first need,
return the stored one afterwards.  `fresh` stands for the
`aiohttp.ClientSession()` that would be constructed.  A stored session
object is always truthy in Python, so `if not self.session` is exactly
the `Option.none` test. -/
def _get_session (st : ClientState) (fresh : Session) :
    Session × ClientState :=
  match st.session with
  | some s => (s, st)
  | Option.none => (fresh, { st with session := some fresh })

/-- `close` (lines 33-36): awaits `self.session.close()` when a session
is stored.  The source never assigns `self.session = None`, so the
reference keeps pointing at the (now closed) session. -/
def close (st : ClientState) : ClientState :=
  match st.session with
  | some s => { st with session := some { s with closed := true } }
  | Option.none => st

/-- Session resolution at the top of `_send_request` (line 103):
`session = session or await self._get_session()`. -/
def resolveSession (st : ClientState) (override : Option Session)
    (fresh : Session) : Session × ClientState :=
  match override with
  | some s => (s, st)
  | Option.none => _get_session st fresh

/-- A dispatch together with its session resolution: which session the
call used, the client state afterwards, and the retrace of the retry
loop. -/
def dispatchWithSession (st : ClientState) (override : Option Session)
    (fresh : Session) (outcomes : Nat → AttemptOutcome) :
    Session × ClientState × DispatchTrace :=
  let r := resolveSession st override fresh
  (r.1, r.2, _send_request st.retries st.backoff_factor outcomes)

/-- `send_message` (lines 38-47): the payload dict literal of lines
41-46, dispatched with the default method `POST` against the base URL.
`[embed] if embed else None` tests Python truthiness, which is false
both for `None` and for an empty dict. -/
def send_message (baseUrl : String) (content username avatar_url : Option String)
    (embed : Option (List (String × Val))) : Request :=
  { method := "POST"
    url := baseUrl
    payload :=
      [("content", optStrVal content),
       ("username", optStrVal username),
       ("avatar_url", optStrVal avatar_url),
       ("embeds",
         match embed with
         | some e => if e.isEmpty then Val.none else Val.list [Val.obj e]
         | Option.none => Val.none)] }

/-- The embed dict literal of `send_embed` (lines 53-61).  Each of
`fields if fields else []`, `{"text": footer} if footer else None`,
`{"url": image_url} if image_url else None` and the thumbnail analogue
is a Python truthiness test, false for `None`, the empty list and the
empty string respectively.  Unset footer/image/thumbnail slots are
stored as `None` — the keys stay present. -/
def buildEmbed (title description : String) (color : Int)
    (fields : Option (List Val))
    (footer image_url thumbnail_url : Option String) :
    List (String × Val) :=
  [("title", Val.str title),
   ("description", Val.str description),
   ("color", Val.int color),
   ("fields",
     match fields with
     | some fs => if fs.isEmpty then Val.list [] else Val.list fs
     | Option.none => Val.list []),
   ("footer",
     match footer with
     | some f => if f = "" then Val.none else Val.obj [("text", Val.str f)]
     | Option.none => Val.none),
   ("image",
     match image_url with
     | some u => if u = "" then Val.none else Val.obj [("url", Val.str u)]
     | Option.none => Val.none),
   ("thumbnail",
     match thumbnail_url with
     | some u => if u = "" then Val.none else Val.obj [("url", Val.str u)]
     | Option.none => Val.none)]

/-- `send_embed` (lines 49-62): build the embed then delegate to
`send_message(embed=embed)`; the embed dict is never empty (it always
holds seven keys), so `send_message` wraps it in a one-element list.
The Python defaults are `color=0x000000`, `fields=None`, `footer=None`,
`image_url=None`, `thumbnail_url=None`. -/
def send_embed (baseUrl : String) (title description : String) (color : Int)
    (fields : Option (List Val))
    (footer image_url thumbnail_url : Option String) : Request :=
  send_message baseUrl Option.none Option.none Option.none
    (some (buildEmbed title description color fields footer image_url thumbnail_url))

/-- `edit_message` (lines 77-88): the same payload dict literal as
`send_message` (lines 81-86 duplicate lines 41-46), dispatched with
method `PATCH` against `f"{self.url}/messages/{message_id}"`. -/
def edit_message (baseUrl : String) (message_id : String)
    (content username avatar_url : Option String)
    (embed : Option (List (String × Val))) : Request :=
  { method := "PATCH"
    url := baseUrl ++ "/messages/" ++ message_id
    payload :=
      [("content", optStrVal content),
       ("username", optStrVal username),
       ("avatar_url", optStrVal avatar_url),
       ("embeds",
         match embed with
         | some e => if e.isEmpty then Val.none else Val.list [Val.obj e]
         | Option.none => Val.none)] }

/-- `delete_message` (lines 90-93): empty payload, method `DELETE`,
same sub-resource URL as `edit_message`. -/
def delete_message (baseUrl : String) (message_id : String) : Request :=
  { method := "DELETE"
    url := baseUrl ++ "/messages/" ++ message_id
    payload := [] }

/-- `get_webhook_info` (lines 95-97): empty payload, method `GET`,
base URL. -/
def get_webhook_info (baseUrl : String) : Request :=
  { method := "GET", url := baseUrl, payload := [] }

/-- `send_file` (lines 64-75).  `fs` models the local filesystem
(`Option.none` at `file_path` makes `open(file_path, "rb")` raise).
`dedicated` stands for the fresh `aiohttp.ClientSession()` constructed
by the `async with` header.  The `open` call happens before and outside
`_send_request`, so its failure propagates to the caller as an
exception (`Except.error`) without any dispatch attempt; on success the
text fields dict of lines 70-74 is built and `_send_request` runs with
the dedicated session passed as the session override. -/
def send_file (st : ClientState) (fs : String → Option (List Nat))
    (file_path : String) (content username avatar_url : Option String)
    (dedicated : Session) (outcomes : Nat → AttemptOutcome) :
    Except String (List (String × Val) × Session × ClientState × DispatchTrace) :=
  match fs file_path with
  | Option.none => Except.error ("FileNotFoundError: " ++ file_path)
  | some _ =>
    let data :=
      [("content", optStrVal content),
       ("username", optStrVal username),
       ("avatar_url", optStrVal avatar_url)]
    Except.ok (data, dispatchWithSession st (some dedicated) dedicated outcomes)

/-- The backoff sleep primitive the dispatcher calls between attempts. -/
inductive SleepPrimitive where
  | timeSleep
  | asyncioSleep
deriving Repr, DecidableEq

/-- Whether a sleep primitive suspends only the calling task: Python's
`asyncio.sleep` yields to the event loop, while `time.sleep` blocks the
whole thread and with it every cooperative task on the loop. -/
def SleepPrimitive.suspendsOnlyCallingTask : SleepPrimitive → Bool
  | SleepPrimitive.timeSleep => false
  | SleepPrimitive.asyncioSleep => true

/-- The primitive used at line 127 of the source:
`time.sleep(backoff_time)`. -/
def backoffSleepPrimitive : SleepPrimitive := SleepPrimitive.timeSleep

/-! ## Unfolding lemmas for the retry loop -/

/-- A successful attempt returns the decoded body at once, whatever the
remaining budget. -/
theorem sendRequestGo_success_eq (bf : ℚ) (outcomes : Nat → AttemptOutcome)
    (attempt : Nat) (b : Val)
    (h : outcomes attempt = AttemptOutcome.success b) :
    ∀ remaining,
      sendRequestGo bf outcomes attempt remaining =
        (DispatchResult.body b, [], 1) := by
  intro remaining
  cases remaining <;> simp [sendRequestGo, h]

/-- A failing attempt with budget left sleeps the post-increment backoff
and recurses. -/
theorem sendRequestGo_fail_step (bf : ℚ) (outcomes : Nat → AttemptOutcome)
    (attempt r : Nat)
    (h : (outcomes attempt).isSuccess = false) :
    sendRequestGo bf outcomes attempt (r + 1) =
      ((sendRequestGo bf outcomes (attempt + 1) r).1,
       (bf * 2 ^ (attempt + 1)) :: (sendRequestGo bf outcomes (attempt + 1) r).2.1,
       (sendRequestGo bf outcomes (attempt + 1) r).2.2 + 1) := by
  cases houtcome : outcomes attempt with
  | success b =>
    rw [houtcome] at h
    simp [AttemptOutcome.isSuccess] at h
  | httpError status msg => simp [sendRequestGo, houtcome]
  | transportError msg => simp [sendRequestGo, houtcome]
  | unexpectedError msg => simp [sendRequestGo, houtcome]

/-- A failing attempt with no budget left returns an error map with one
attempt and no sleep. -/
theorem sendRequestGo_fail_last (bf : ℚ) (outcomes : Nat → AttemptOutcome)
    (attempt : Nat)
    (h : (outcomes attempt).isSuccess = false) :
    ∃ m, sendRequestGo bf outcomes attempt 0 =
      (DispatchResult.errorMap m, [], 1) := by
  cases houtcome : outcomes attempt with
  | success b =>
    rw [houtcome] at h
    simp [AttemptOutcome.isSuccess] at h
  | httpError status msg =>
    exact ⟨"Max retries reached: " ++ msg, by simp [sendRequestGo, houtcome]⟩
  | transportError msg =>
    exact ⟨"Request failed: " ++ msg, by simp [sendRequestGo, houtcome]⟩
  | unexpectedError msg =>
    exact ⟨"Unexpected error: " ++ msg, by simp [sendRequestGo, houtcome]⟩

/-- When every attempt fails, the loop at budget `remaining` issues
`remaining + 1` attempts, sleeps `remaining` times, and ends in an
error map. -/
theorem sendRequestGo_allFail (bf : ℚ) (outcomes : Nat → AttemptOutcome)
    (hfail : ∀ n, (outcomes n).isSuccess = false) :
    ∀ remaining attempt,
      (sendRequestGo bf outcomes attempt remaining).2.2 = remaining + 1 ∧
      (sendRequestGo bf outcomes attempt remaining).2.1.length = remaining ∧
      ∃ m, (sendRequestGo bf outcomes attempt remaining).1 =
        DispatchResult.errorMap m := by
  intro remaining
  induction remaining with
  | zero =>
    intro attempt
    obtain ⟨m, hm⟩ := sendRequestGo_fail_last bf outcomes attempt (hfail attempt)
    rw [hm]
    exact ⟨rfl, rfl, m, rfl⟩
  | succ r ih =>
    intro attempt
    rw [sendRequestGo_fail_step bf outcomes attempt r (hfail attempt)]
    obtain ⟨h1, h2, m, h3⟩ := ih (attempt + 1)
    exact ⟨by simp [h1], by simp [h2], m, h3⟩

/-- Every sleep the loop records depends only on its position: the i-th
sleep recorded from attempt index `attempt` is
`bf * 2 ^ (attempt + 1 + i)`. -/
theorem sendRequestGo_sleep_values (bf : ℚ) (outcomes : Nat → AttemptOutcome) :
    ∀ remaining attempt i,
      i < (sendRequestGo bf outcomes attempt remaining).2.1.length →
      (sendRequestGo bf outcomes attempt remaining).2.1.getD i 0 =
        bf * 2 ^ (attempt + 1 + i) := by
  intro remaining
  induction remaining with
  | zero =>
    intro attempt i hi
    cases houtcome : outcomes attempt <;> simp [sendRequestGo, houtcome] at hi
  | succ r ih =>
    intro attempt i hi
    by_cases hsuc : (outcomes attempt).isSuccess = true
    · obtain ⟨b, hb⟩ : ∃ b, outcomes attempt = AttemptOutcome.success b := by
        cases houtcome : outcomes attempt <;>
          rw [houtcome] at hsuc <;>
          simp [AttemptOutcome.isSuccess] at hsuc
        exact ⟨_, rfl⟩
      rw [sendRequestGo_success_eq bf outcomes attempt b hb] at hi
      simp at hi
    · have hfail : (outcomes attempt).isSuccess = false := by
        simpa using hsuc
      rw [sendRequestGo_fail_step bf outcomes attempt r hfail] at hi ⊢
      cases i with
      | zero => simp
      | succ j =>
        simp only [List.length_cons, Nat.add_lt_add_iff_right] at hi
        have hv := ih (attempt + 1) j hi
        have hexp : attempt + 1 + 1 + j = attempt + 1 + (j + 1) := by omega
        simp only [List.getD_cons_succ]
        rw [hv, hexp]

/-- If the first `i` attempts fail and attempt `i` succeeds (counting
from `attempt`), the loop returns the body with `i + 1` attempts and `i`
sleeps. -/
theorem sendRequestGo_first_success (bf : ℚ) (outcomes : Nat → AttemptOutcome) :
    ∀ i attempt remaining b, i ≤ remaining →
      (∀ j, j < i → (outcomes (attempt + j)).isSuccess = false) →
      outcomes (attempt + i) = AttemptOutcome.success b →
      sendRequestGo bf outcomes attempt remaining =
        ((DispatchResult.body b),
         (sendRequestGo bf outcomes attempt remaining).2.1,
         i + 1) ∧
      (sendRequestGo bf outcomes attempt remaining).2.1.length = i := by
  intro i
  induction i with
  | zero =>
    intro attempt remaining b _ _ hsucc
    rw [Nat.add_zero] at hsucc
    rw [sendRequestGo_success_eq bf outcomes attempt b hsucc remaining]
    exact ⟨rfl, rfl⟩
  | succ j ih =>
    intro attempt remaining b hle hbef hsucc
    have hfail0 : (outcomes attempt).isSuccess = false := by
      have h0 := hbef 0 (Nat.succ_pos j)
      rwa [Nat.add_zero] at h0
    obtain ⟨r, rfl⟩ : ∃ r, remaining = r + 1 := ⟨remaining - 1, by omega⟩
    rw [sendRequestGo_fail_step bf outcomes attempt r hfail0]
    have hbef2 : ∀ j2, j2 < j →
        (outcomes (attempt + 1 + j2)).isSuccess = false := by
      intro j2 hj2
      have h2 := hbef (j2 + 1) (by omega)
      rwa [show attempt + (j2 + 1) = attempt + 1 + j2 by omega] at h2
    have hsucc2 : outcomes (attempt + 1 + j) = AttemptOutcome.success b := by
      rwa [show attempt + (j + 1) = attempt + 1 + j by omega] at hsucc
    obtain ⟨hres, hlen⟩ := ih (attempt + 1) r b (by omega) hbef2 hsucc2
    constructor
    · rw [hres]
    · simp [hlen]

/-! ## Claim theorems -/

/-- C1: for every retry budget r ≥ 0, if every HTTP attempt fails (with
an HTTP-response, transport, or unexpected error), `_send_request` makes
exactly r + 1 total attempts and returns an error-descriptor result,
with no further retry and no sleep after the final attempt (so exactly r
sleeps in total, one before each retry). -/
theorem retry_exhaustion_C1 (r : Nat) (bf : ℚ)
    (outcomes : Nat → AttemptOutcome)
    (hfail : ∀ n, (outcomes n).isSuccess = false) :
    (_send_request r bf outcomes).attempts = r + 1 ∧
    (_send_request r bf outcomes).sleeps.length = r ∧
    ∃ m, (_send_request r bf outcomes).result =
      some (DispatchResult.errorMap m) := by
  have hnn : ¬ ((r : Int) < 0) := by omega
  obtain ⟨h1, h2, m, h3⟩ := sendRequestGo_allFail bf outcomes hfail r 0
  refine ⟨?_, ?_, m, ?_⟩ <;>
    simp [_send_request, hnn, Int.toNat_natCast, h1, h2, h3]

/-- Witness for C1 at r = 2 with a permanently failing transport. -/
theorem retry_exhaustion_C1_witness :
    (_send_request 2 1 (fun _ => AttemptOutcome.transportError "boom")).attempts = 2 + 1 ∧
    (_send_request 2 1 (fun _ => AttemptOutcome.transportError "boom")).sleeps.length = 2 ∧
    ∃ m, (_send_request 2 1 (fun _ => AttemptOutcome.transportError "boom")).result =
      some (DispatchResult.errorMap m) :=
  retry_exhaustion_C1 2 1 (fun _ => AttemptOutcome.transportError "boom")
    (fun _ => rfl)

/-- C2: for every retry budget r ≥ 0, the retry loop never raises to the
caller: it always returns a value, either a decoded success body or the
mapping carrying the fixed error key. -/
theorem total_result_C2 (retries : Int) (h : 0 ≤ retries) (bf : ℚ)
    (outcomes : Nat → AttemptOutcome) :
    ∃ res, (_send_request retries bf outcomes).result = some res ∧
      ((∃ b, res = DispatchResult.body b) ∨
       (∃ m, res = DispatchResult.errorMap m ∧
         res.toReturnValue = Val.obj [(errorKey, Val.str m)])) := by
  have hnn : ¬ (retries < 0) := not_lt.mpr h
  refine ⟨(sendRequestGo bf outcomes 0 retries.toNat).1, ?_, ?_⟩
  · simp [_send_request, hnn]
  · cases hres : (sendRequestGo bf outcomes 0 retries.toNat).1 with
    | body b => exact Or.inl ⟨b, rfl⟩
    | errorMap m =>
      exact Or.inr ⟨m, rfl, by simp [DispatchResult.toReturnValue]⟩

/-- Witness for C2 at retries = 0 with a succeeding attempt. -/
theorem total_result_C2_witness :
    ∃ res, (_send_request 0 1 (fun _ => AttemptOutcome.success Val.none)).result = some res ∧
      ((∃ b, res = DispatchResult.body b) ∨
       (∃ m, res = DispatchResult.errorMap m ∧
         res.toReturnValue = Val.obj [(errorKey, Val.str m)])) :=
  total_result_C2 0 (by decide) 1 (fun _ => AttemptOutcome.success Val.none)

/-- C3: for every k ≥ 1 and positive backoff factor, the delay slept
before the k-th retry equals `backoff_factor * 2 ^ k` (post-increment
exponent: the first retry waits 2 × the factor, never 1 ×), and the
delays grow strictly with k. -/
theorem backoff_schedule_C3 (retries : Int) (bf : ℚ)
    (outcomes : Nat → AttemptOutcome) (hbf : 0 < bf) (k : Nat)
    (hk : 1 ≤ k)
    (hk_le : k ≤ (_send_request retries bf outcomes).sleeps.length) :
    (_send_request retries bf outcomes).sleeps.getD (k - 1) 0 = bf * 2 ^ k ∧
    ∀ k2, k < k2 →
      k2 ≤ (_send_request retries bf outcomes).sleeps.length →
      (_send_request retries bf outcomes).sleeps.getD (k - 1) 0 <
        (_send_request retries bf outcomes).sleeps.getD (k2 - 1) 0 := by
  by_cases hneg : retries < 0
  · exfalso
    rw [show _send_request retries bf outcomes =
        { result := Option.none, sleeps := [], attempts := 0 } from
      by simp [_send_request, hneg]] at hk_le
    simp at hk_le
    omega
  · have hsl : (_send_request retries bf outcomes).sleeps =
        (sendRequestGo bf outcomes 0 retries.toNat).2.1 := by
      simp [_send_request, hneg]
    rw [hsl] at hk_le ⊢
    have hval : ∀ j, 1 ≤ j →
        j ≤ (sendRequestGo bf outcomes 0 retries.toNat).2.1.length →
        (sendRequestGo bf outcomes 0 retries.toNat).2.1.getD (j - 1) 0 =
          bf * 2 ^ j := by
      intro j hj1 hjle
      have hv := sendRequestGo_sleep_values bf outcomes retries.toNat 0 (j - 1)
        (by omega)
      rw [hv, show 0 + 1 + (j - 1) = j by omega]
    refine ⟨hval k hk hk_le, ?_⟩
    intro k2 hk2 hk2le
    rw [hval k hk hk_le, hval k2 (by omega) hk2le]
    have hpow : (2 : ℚ) ^ k < 2 ^ k2 := by
      apply pow_lt_pow_right₀ (by norm_num) hk2
    exact mul_lt_mul_of_pos_left hpow hbf

/-- Witness for C3: retries = 3, bf = 1, all attempts fail; the first
sleep is 2 and later sleeps are strictly larger. -/
theorem backoff_schedule_C3_witness :
    (_send_request 3 1 (fun _ => AttemptOutcome.httpError 500 "e")).sleeps.getD (1 - 1) 0 = 1 * 2 ^ 1 ∧
    ∀ k2, 1 < k2 →
      k2 ≤ (_send_request 3 1 (fun _ => AttemptOutcome.httpError 500 "e")).sleeps.length →
      (_send_request 3 1 (fun _ => AttemptOutcome.httpError 500 "e")).sleeps.getD (1 - 1) 0 <
        (_send_request 3 1 (fun _ => AttemptOutcome.httpError 500 "e")).sleeps.getD (k2 - 1) 0 :=
  backoff_schedule_C3 3 1 (fun _ => AttemptOutcome.httpError 500 "e")
    (by norm_num) 1 (by omega) (by decide)

/-- C4: a dispatch whose HTTP call succeeds on attempt index i (0-based,
i ≤ retries) returns the decoded JSON body at once, with exactly i + 1
attempts and exactly i sleeps — none after the success. -/
theorem success_shortcircuit_C4 (r : Nat) (bf : ℚ)
    (outcomes : Nat → AttemptOutcome) (i : Nat) (b : Val) (hi : i ≤ r)
    (hbefore : ∀ j, j < i → (outcomes j).isSuccess = false)
    (hsucc : outcomes i = AttemptOutcome.success b) :
    (_send_request r bf outcomes).result = some (DispatchResult.body b) ∧
    (_send_request r bf outcomes).attempts = i + 1 ∧
    (_send_request r bf outcomes).sleeps.length = i := by
  have hnn : ¬ ((r : Int) < 0) := by omega
  obtain ⟨hres, hlen⟩ := sendRequestGo_first_success bf outcomes i 0 r b hi
    (by intro j hj; rw [Nat.zero_add]; exact hbefore j hj)
    (by rwa [Nat.zero_add])
  have hsr : _send_request (r : Int) bf outcomes =
      { result := some (sendRequestGo bf outcomes 0 r).1,
        sleeps := (sendRequestGo bf outcomes 0 r).2.1,
        attempts := (sendRequestGo bf outcomes 0 r).2.2 } := by
    simp [_send_request, hnn, Int.toNat_natCast]
  rw [hsr]
  refine ⟨?_, ?_, hlen⟩
  · rw [hres]
  · rw [hres]

/-- The environment for the C4 witness: attempt 0 fails with a transport
error, every later attempt succeeds with body "ok". -/
def oneFailOutcomes : Nat → AttemptOutcome := fun n =>
  if n < 1 then AttemptOutcome.transportError "net down"
  else AttemptOutcome.success (Val.str "ok")

/-- Witness for C4: retries = 2, success on attempt index 1. -/
theorem success_shortcircuit_C4_witness :
    (_send_request 2 1 oneFailOutcomes).result =
      some (DispatchResult.body (Val.str "ok")) ∧
    (_send_request 2 1 oneFailOutcomes).attempts = 1 + 1 ∧
    (_send_request 2 1 oneFailOutcomes).sleeps.length = 1 :=
  success_shortcircuit_C4 2 1 oneFailOutcomes 1 (Val.str "ok") (by omega)
    (fun j hj => by
      have hj0 : j = 0 := by omega
      subst hj0
      rfl)
    rfl

/-- C5 counterexample: `send_embed("T", "D")` with all other arguments
at their Python defaults stores the footer, image and thumbnail slots as
explicit `None` values, so those keys ARE present in the embed dict —
refuting the claim that no footer, image or thumbnail key is present. -/
theorem embed_default_keys_C5_counterexample :
    "footer" ∈ (buildEmbed "T" "D" 0 Option.none Option.none Option.none
        Option.none).map Prod.fst ∧
    "image" ∈ (buildEmbed "T" "D" 0 Option.none Option.none Option.none
        Option.none).map Prod.fst ∧
    "thumbnail" ∈ (buildEmbed "T" "D" 0 Option.none Option.none Option.none
        Option.none).map Prod.fst := by
  refine ⟨?_, ?_, ?_⟩ <;> simp [buildEmbed]

/-- C5 (amended): `send_embed("T", "D")` with defaults produces an embed
with color 0 and an empty fields sequence, and its footer, image and
thumbnail keys are present but each mapped to `None`. -/
theorem embed_default_values_C5 :
    (send_embed "https://example.test/hook" "T" "D" 0 Option.none Option.none
        Option.none Option.none).payload.lookup "embeds" =
      some (Val.list [Val.obj (buildEmbed "T" "D" 0 Option.none Option.none
        Option.none Option.none)]) ∧
    (buildEmbed "T" "D" 0 Option.none Option.none Option.none
        Option.none).lookup "color" = some (Val.int 0) ∧
    (buildEmbed "T" "D" 0 Option.none Option.none Option.none
        Option.none).lookup "fields" = some (Val.list []) ∧
    (buildEmbed "T" "D" 0 Option.none Option.none Option.none
        Option.none).lookup "footer" = some Val.none ∧
    (buildEmbed "T" "D" 0 Option.none Option.none Option.none
        Option.none).lookup "image" = some Val.none ∧
    (buildEmbed "T" "D" 0 Option.none Option.none Option.none
        Option.none).lookup "thumbnail" = some Val.none :=
  ⟨rfl, rfl, rfl, rfl, rfl, rfl⟩

/-- A client whose session is live: used as the concrete state for the
session-lifecycle counterexample and witnesses. -/
def liveState : ClientState :=
  { url := "https://example.test/hook", retries := 3, backoff_factor := 1,
    session := some { sid := 0, closed := false } }

/-- C6 counterexample: closing a client with a live session does NOT
clear the stored session reference — after `close` the reference is
still set, refuting the "clears the stored session reference" part. -/
theorem close_keeps_reference_C6_counterexample :
    ¬ ((close liveState).session = Option.none) := by
  simp [close, liveState]

/-- C6 (amended): `close` is a no-op that does not raise when no session
was ever created; when a session is live it closes it but leaves the
session reference set (pointing at the closed session); and closing
twice has the same effect on the client state as closing once. -/
theorem close_behavior_C6 (st : ClientState) :
    (st.session = Option.none → close st = st) ∧
    (∀ s, st.session = some s →
      (close st).session = some { s with closed := true }) ∧
    close (close st) = close st := by
  refine ⟨?_, ?_, ?_⟩
  · intro h
    simp [close, h]
  · intro s h
    simp [close, h]
  · cases h : st.session with
    | none => simp [close, h]
    | some s => simp [close, h]

/-- Witness for C6 at a live session and at the session-free state. -/
theorem close_behavior_C6_witness :
    close (close liveState) = close liveState ∧
    (close liveState).session = some { sid := 0, closed := true } ∧
    close { liveState with session := Option.none } =
      { liveState with session := Option.none } :=
  ⟨(close_behavior_C6 liveState).2.2,
   (close_behavior_C6 liveState).2.1 { sid := 0, closed := false } rfl,
   (close_behavior_C6 { liveState with session := Option.none }).1 rfl⟩

/-- C7: `edit_message` builds the same payload as `send_message` with
the same arguments, and issues exactly one kind of call: method PATCH
against `base_url/messages/{message_id}`, never against the base URL
itself. -/
theorem edit_targets_subresource_C7 (base id : String)
    (content username avatar_url : Option String)
    (embed : Option (List (String × Val))) :
    (edit_message base id content username avatar_url embed).method = "PATCH" ∧
    (edit_message base id content username avatar_url embed).url =
      base ++ "/messages/" ++ id ∧
    (edit_message base id content username avatar_url embed).payload =
      (send_message base content username avatar_url embed).payload ∧
    (edit_message base id content username avatar_url embed).url ≠ base := by
  refine ⟨rfl, rfl, rfl, ?_⟩
  intro h
  rw [show (edit_message base id content username avatar_url embed).url =
      base ++ "/messages/" ++ id from rfl] at h
  have hlen := congrArg String.length h
  rw [String.length_append, String.length_append] at hlen
  have h10 : "/messages/".length = 10 := rfl
  rw [h10] at hlen
  omega

/-- C8: `send_file` dispatches through the dedicated session created for
the call, leaving the client's shared session untouched; and a file-open
failure propagates directly to the caller, without any dispatch attempt
and without an error-descriptor result. -/
theorem send_file_isolation_C8 (st : ClientState)
    (fs : String → Option (List Nat)) (file_path : String)
    (content username avatar_url : Option String) (dedicated : Session)
    (outcomes : Nat → AttemptOutcome) :
    (fs file_path = Option.none →
      send_file st fs file_path content username avatar_url dedicated outcomes =
        Except.error ("FileNotFoundError: " ++ file_path)) ∧
    (∀ bytes, fs file_path = some bytes →
      send_file st fs file_path content username avatar_url dedicated outcomes =
        Except.ok
          ([("content", optStrVal content), ("username", optStrVal username),
            ("avatar_url", optStrVal avatar_url)],
           dedicated, st,
           _send_request st.retries st.backoff_factor outcomes)) := by
  constructor
  · intro h
    simp [send_file, h]
  · intro bytes h
    simp [send_file, h, dispatchWithSession, resolveSession]

/-- Witness for C8: a missing file propagates the open failure; an
existing file dispatches through the dedicated session with the shared
state untouched. -/
theorem send_file_isolation_C8_witness :
    send_file liveState (fun _ => Option.none) "missing.txt" Option.none
        Option.none Option.none { sid := 7, closed := false }
        (fun _ => AttemptOutcome.success Val.none) =
      Except.error ("FileNotFoundError: " ++ "missing.txt") ∧
    send_file liveState (fun _ => some [0]) "a.bin" Option.none
        Option.none Option.none { sid := 7, closed := false }
        (fun _ => AttemptOutcome.success Val.none) =
      Except.ok
        ([("content", optStrVal Option.none), ("username", optStrVal Option.none),
          ("avatar_url", optStrVal Option.none)],
         { sid := 7, closed := false }, liveState,
         _send_request liveState.retries liveState.backoff_factor
           (fun _ => AttemptOutcome.success Val.none)) :=
  ⟨(send_file_isolation_C8 liveState (fun _ => Option.none) "missing.txt"
      Option.none Option.none Option.none { sid := 7, closed := false }
      (fun _ => AttemptOutcome.success Val.none)).1 rfl,
   (send_file_isolation_C8 liveState (fun _ => some [0]) "a.bin"
      Option.none Option.none Option.none { sid := 7, closed := false }
      (fun _ => AttemptOutcome.success Val.none)).2 [0] rfl⟩

/-- C9 (code bug): the dispatcher's backoff wait at line 127 is
`time.sleep(backoff_time)` — the thread-blocking primitive, which stalls
every cooperative task on the event loop, not only the calling task. -/
theorem blocking_backoff_C9 :
    backoffSleepPrimitive = SleepPrimitive.timeSleep ∧
    backoffSleepPrimitive.suspendsOnlyCallingTask = false :=
  ⟨rfl, rfl⟩

/-- C10: after `close` on a client whose session was live, the session
reference remains set, so `_get_session` — and with it every dispatching
operation — returns the already-closed session and never creates a fresh
one; the client state is not changed by the lookup. -/
theorem closed_session_reuse_C10 (st : ClientState) (s : Session)
    (h : st.session = some s) (fresh : Session)
    (outcomes : Nat → AttemptOutcome) :
    (close st).session = some { s with closed := true } ∧
    _get_session (close st) fresh = ({ s with closed := true }, close st) ∧
    dispatchWithSession (close st) Option.none fresh outcomes =
      ({ s with closed := true }, close st,
       _send_request (close st).retries (close st).backoff_factor outcomes) := by
  have h1 : (close st).session = some { s with closed := true } := by
    simp [close, h]
  refine ⟨h1, ?_, ?_⟩
  · simp [_get_session, h1]
  · simp [dispatchWithSession, resolveSession, _get_session, h1]

/-- Witness for C10 at the concrete live-session client. -/
theorem closed_session_reuse_C10_witness :
    (close liveState).session = some { sid := 0, closed := true } ∧
    _get_session (close liveState) { sid := 5, closed := false } =
      ({ sid := 0, closed := true }, close liveState) ∧
    dispatchWithSession (close liveState) Option.none
        { sid := 5, closed := false }
        (fun _ => AttemptOutcome.success Val.none) =
      ({ sid := 0, closed := true }, close liveState,
       _send_request (close liveState).retries (close liveState).backoff_factor
         (fun _ => AttemptOutcome.success Val.none)) :=
  closed_session_reuse_C10 liveState { sid := 0, closed := false } rfl
    { sid := 5, closed := false } (fun _ => AttemptOutcome.success Val.none)

end DiscordWebhookAsync
